import Mathlib

/-!
Shallow embedding of the build-configuration script `setup.py` of the
yara-python repository.

The script has two observable pieces of logic:

* `BuildCommand.finalize_options` (setup.py lines 87-94): validates the four
  boolean build flags and raises `DistutilsOptionError` on the two
  mutually-exclusive combinations.

* `BuildCommand.run` (setup.py lines 96-187): a straight-line computation
  that derives the source list, the include and library directory lists, the
  library list and the macro list of the single `Extension` object from
    - the four flags,
    - the platform identifier `self.plat_name`,
    - the outcomes of the compiler capability probes
      (`has_function` for memmem, strlcpy, strlcat, MD5_Init, SHA256_Init),
    - the files found by `os.walk` over `yara/libyara/`.
  The probe outcomes and the walk results are the only interactions of `run`
  with the outside world, so the embedding takes them as explicit inputs of
  the configuration record and `runBuild` is a pure total function of it.
  `run` itself raises no exception on any input.

Paths: line 170 normalises the exclusion paths and line 174 normalises each
walked path with `os.path.normpath` before the comparison, so both sides are
compared in the same normal form.  The embedding works in that common normal
form: `walkFiles` holds the already-normalised walked paths, and the literal
exclusion strings (which on POSIX are their own normal forms) stand for their
normal forms.

The context manager `muted` (setup.py lines 32-55) manipulates the process
file-descriptor table through `os.dup` / `os.dup2` / `close`; it is embedded
further below as explicit state passing over an fd-table.
-/

/-- The inputs of one execution of the build configuration: the four boolean
options of `BuildCommand` (setup.py lines 80-85; `None` and `0` both mean
unset, so they are Booleans here), the platform identifier, the outcome of
each `has_function` capability probe performed by `run`, and the normalised
paths of the files discovered by `os.walk` over `yara/libyara/`
(setup.py lines 172-176). -/
structure BuildConfig where
  plat_name : String
  dynamic_linking : Bool
  enable_magic : Bool
  enable_cuckoo : Bool
  enable_profiling : Bool
  has_memmem : Bool
  has_strlcpy : Bool
  has_strlcat : Bool
  has_MD5_Init : Bool
  has_SHA256_Init : Bool
  walkFiles : List String
deriving Repr

/-- The fields of the `Extension` object built at setup.py lines 178-185. -/
structure ExtensionSpec where
  sources : List String
  include_dirs : List String
  library_dirs : List String
  libraries : List String
  define_macros : List (String × String)
  extra_compile_args : List String
deriving Repr, DecidableEq

/-- setup.py lines 87-94: `finalize_options` raises `DistutilsOptionError`
when `enable_magic` and `dynamic_linking` are both set, and when
`enable_cuckoo` and `dynamic_linking` are both set.  (In the Python source
the adjacent string literals `can` `t` concatenate to `cant`.) -/
def finalize_options (cfg : BuildConfig) : Except String Unit :=
  if cfg.enable_magic && cfg.dynamic_linking then
    Except.error "--enable-magic cant be used with --dynamic-linking"
  else if cfg.enable_cuckoo && cfg.dynamic_linking then
    Except.error "--enable-cuckoo cant be used with --dynamic-linking"
  else
    Except.ok ()

/-- Whether `finalize_options` raised. -/
def finalizeRaises (cfg : BuildConfig) : Bool :=
  match finalize_options cfg with
  | Except.error _ => true
  | Except.ok _ => false

/-- setup.py line 112: the membership test of `plat_name` in the pair of identifiers win32 and win-amd64. -/
def isWindows (cfg : BuildConfig) : Bool :=
  cfg.plat_name == "win32" || cfg.plat_name == "win-amd64"

/-- setup.py line 114: `bits` is 64 when `plat_name` equals win-amd64 and 32 otherwise. -/
def bitsStr (cfg : BuildConfig) : String :=
  if cfg.plat_name == "win-amd64" then "64" else "32"

/-- Executable check that `pat` occurs at the start of `l` (the comparison
done by the Python substring test at each offset). -/
def startsWithChars : List Char → List Char → Bool
  | [], _ => true
  | _ :: _, [] => false
  | a :: as, b :: bs => a == b && startsWithChars as bs

/-- Executable model of the Python substring operator `pat in s`, on the
character lists of the two strings: `pat` occurs at some offset of `l`. -/
def hasSubstring (pat : List Char) : List Char → Bool
  | [] => pat.isEmpty
  | b :: bs => startsWithChars pat (b :: bs) || hasSubstring pat bs

/-- setup.py line 121: the substring test for macosx inside `plat_name`. -/
def isOSX (cfg : BuildConfig) : Bool :=
  hasSubstring "macosx".toList cfg.plat_name.toList

/-- Executable model of the Python method `s.endswith(suffix)`: the
characters of `suffix` occur at the end of `s`. -/
def strEndsWith (s suffix : String) : Bool :=
  startsWithChars suffix.toList.reverse s.toList.reverse

/-- setup.py lines 105, 149-154, 156-159, 161-168: the exclusion list as it
stands when it is consumed by the walk at line 175 (it is only consumed in
the static-linking branch).  `pe_utils.c` is always on it (line 105);
`hash.c` is added when the platform is not Windows and the MD5_Init or the
SHA256_Init probe fails (line 154); `magic.c` when `enable_magic` is unset
(line 159); `cuckoo.c` when `enable_cuckoo` is unset (line 168). -/
def buildExclusions (cfg : BuildConfig) : List String :=
  ["yara/libyara/modules/pe_utils.c"]
    ++ (if isWindows cfg then []
        else if cfg.has_MD5_Init && cfg.has_SHA256_Init then []
        else ["yara/libyara/modules/hash.c"])
    ++ (if cfg.enable_magic then [] else ["yara/libyara/modules/magic.c"])
    ++ (if cfg.enable_cuckoo then [] else ["yara/libyara/modules/cuckoo.c"])

/-- setup.py lines 104, 172-176: the source list starts as
the one-element list holding yara-python.c; when dynamic linking is off, every walked file that
ends in `.c` and is not on the exclusion list is appended. -/
def buildSources (cfg : BuildConfig) : List String :=
  if cfg.dynamic_linking then ["yara-python.c"]
  else
    "yara-python.c" ::
      cfg.walkFiles.filter
        (fun x => strEndsWith x ".c" && !((buildExclusions cfg).contains x))

/-- setup.py lines 110, 115, 128-136, 146-151, 156-162: the macro list, with
each conditional append in source order. -/
def buildMacros (cfg : BuildConfig) : List (String × String) :=
  (if isWindows cfg then [("_CRT_SECURE_NO_WARNINGS", "1")] else [])
    ++ (if cfg.has_memmem then [("HAVE_MEMMEM", "1")] else [])
    ++ (if cfg.has_strlcpy then [("HAVE_STRLCPY", "1")] else [])
    ++ (if cfg.has_strlcat then [("HAVE_STRLCAT", "1")] else [])
    ++ (if cfg.enable_profiling then [("PROFILING_ENABLED", "1")] else [])
    ++ (if cfg.dynamic_linking then []
        else
          (if isWindows cfg then [("HASH", "1")]
           else if cfg.has_MD5_Init && cfg.has_SHA256_Init then [("HASH", "1")]
           else [])
            ++ (if cfg.enable_magic then [("MAGIC", "1")] else [])
            ++ (if cfg.enable_cuckoo then [("CUCKOO", "1")] else []))

/-- setup.py lines 106, 116-117, 138-139, 146-152, 161-166: the library list.
It starts as the one-element list holding yara; on Windows `advapi32` and
`user32` are appended; when dynamic linking is off, yara is removed
(`list.remove`, first
occurrence) and the hashing and cuckoo libraries are conditionally
appended. -/
def buildLibraries (cfg : BuildConfig) : List String :=
  let libs := ["yara"] ++ (if isWindows cfg then ["advapi32", "user32"] else [])
  if cfg.dynamic_linking then libs
  else
    libs.erase "yara"
      ++ (if isWindows cfg then ["libeay" ++ bitsStr cfg]
          else if cfg.has_MD5_Init && cfg.has_SHA256_Init then ["crypto"]
          else [])
      ++ (if cfg.enable_cuckoo then
            [if isWindows cfg then "jansson" ++ bitsStr cfg else "jansson"]
          else [])

/-- setup.py lines 107, 123, 140, 143: the include directory list. -/
def buildIncludeDirs (cfg : BuildConfig) : List String :=
  (if isOSX cfg then ["/opt/local/include"] else [])
    ++ (if cfg.dynamic_linking then []
        else
          ["yara/libyara/include", "yara/libyara/", "."]
            ++ (if isWindows cfg then ["yara/windows/include"] else []))

/-- setup.py lines 108, 124, 144: the library directory list. -/
def buildLibraryDirs (cfg : BuildConfig) : List String :=
  (if isOSX cfg then ["/opt/local/lib"] else [])
    ++ (if cfg.dynamic_linking then []
        else if isWindows cfg then ["yara/windows/lib"] else [])

/-- setup.py lines 96-187: `BuildCommand.run` as a pure function of the
configuration inputs.  `compile_args` is initialised at line 109 and never
extended.  `run` raises nothing: every condition only narrows the feature
set, so the result is total. -/
def runBuild (cfg : BuildConfig) : ExtensionSpec :=
  { sources := buildSources cfg
    include_dirs := buildIncludeDirs cfg
    library_dirs := buildLibraryDirs cfg
    libraries := buildLibraries cfg
    define_macros := buildMacros cfg
    extra_compile_args := [] }

/-! Characterisations of the executable string-matching models, connecting
them to the mathematical decompositions they implement. -/

theorem startsWithChars_iff : ∀ pat l : List Char,
    startsWithChars pat l = true ↔ ∃ post, l = pat ++ post
  | [], l => by simp [startsWithChars]
  | _ :: _, [] => by simp [startsWithChars]
  | a :: as, b :: bs => by
      simp only [startsWithChars, Bool.and_eq_true, beq_iff_eq,
        startsWithChars_iff as bs, List.cons_append, List.cons.injEq]
      constructor
      · rintro ⟨rfl, post, rfl⟩
        exact ⟨post, rfl, rfl⟩
      · rintro ⟨post, rfl, rfl⟩
        exact ⟨rfl, post, rfl⟩

theorem hasSubstring_iff : ∀ pat l : List Char,
    hasSubstring pat l = true ↔ ∃ pre post, l = pre ++ (pat ++ post)
  | pat, [] => by
      constructor
      · intro h
        have h0 : pat.isEmpty = true := h
        have hp : pat = [] := List.isEmpty_iff.mp h0
        exact ⟨[], [], by simp [hp]⟩
      · rintro ⟨pre, post, hp⟩
        have h1 : pre = [] ∧ pat ++ post = [] := List.append_eq_nil.mp hp.symm
        have h2 : pat = [] := (List.append_eq_nil.mp h1.2).1
        subst h2
        rfl
  | pat, b :: bs => by
      rw [hasSubstring]
      simp only [Bool.or_eq_true, startsWithChars_iff, hasSubstring_iff pat bs]
      constructor
      · rintro (⟨post, hp⟩ | ⟨pre, post, rfl⟩)
        · exact ⟨[], post, by simpa using hp⟩
        · exact ⟨b :: pre, post, rfl⟩
      · rintro ⟨pre, post, hp⟩
        cases pre with
        | nil => exact Or.inl ⟨post, by simpa using hp⟩
        | cons c pre =>
            simp only [List.cons_append, List.cons.injEq] at hp
            exact Or.inr ⟨pre, post, hp.2⟩

theorem strEndsWith_iff (s suffix : String) :
    strEndsWith s suffix = true ↔ ∃ pre, s.toList = pre ++ suffix.toList := by
  rw [strEndsWith, startsWithChars_iff]
  constructor
  · rintro ⟨post, hp⟩
    refine ⟨post.reverse, ?_⟩
    have := congrArg List.reverse hp
    simpa using this
  · rintro ⟨pre, hp⟩
    exact ⟨pre.reverse, by rw [hp, List.reverse_append]⟩

/-! Concrete configurations used by the witness theorems. -/

/-- A static (non-dynamic) Linux configuration with every optional feature
enabled and one walked file. -/
def cfgLinuxStatic : BuildConfig :=
  { plat_name := "linux-x86_64"
    dynamic_linking := false
    enable_magic := true
    enable_cuckoo := true
    enable_profiling := true
    has_memmem := true
    has_strlcpy := true
    has_strlcat := true
    has_MD5_Init := true
    has_SHA256_Init := true
    walkFiles := ["yara/libyara/ahocorasick.c"] }

/-- A static Windows (win32) configuration with failing hash probes. -/
def cfgWin32Static : BuildConfig :=
  { plat_name := "win32"
    dynamic_linking := false
    enable_magic := false
    enable_cuckoo := false
    enable_profiling := false
    has_memmem := false
    has_strlcpy := false
    has_strlcat := false
    has_MD5_Init := false
    has_SHA256_Init := false
    walkFiles := [] }

/-- A dynamic-linking macOS configuration. -/
def cfgOSXDynamic : BuildConfig :=
  { plat_name := "macosx-10.9-intel"
    dynamic_linking := true
    enable_magic := false
    enable_cuckoo := false
    enable_profiling := false
    has_memmem := true
    has_strlcpy := false
    has_strlcat := false
    has_MD5_Init := true
    has_SHA256_Init := true
    walkFiles := [] }

/-- A static Linux configuration whose MD5 probe fails, with magic and
cuckoo unset. -/
def cfgLinuxNoCrypto : BuildConfig :=
  { plat_name := "linux-x86_64"
    dynamic_linking := false
    enable_magic := false
    enable_cuckoo := false
    enable_profiling := false
    has_memmem := true
    has_strlcpy := true
    has_strlcat := true
    has_MD5_Init := false
    has_SHA256_Init := true
    walkFiles := ["yara/libyara/modules/hash.c", "yara/libyara/grammar.c"] }

/-- C1: `finalize_options` raises `DistutilsOptionError` if and only if
`enable_magic` is set together with `dynamic_linking` or `enable_cuckoo` is
set together with `dynamic_linking`; any one flag alone never raises
(setup.py lines 87-94). -/
theorem finalize_options_error_iff (cfg : BuildConfig) :
    finalizeRaises cfg = true ↔
      (cfg.enable_magic && cfg.dynamic_linking) = true ∨
        (cfg.enable_cuckoo && cfg.dynamic_linking) = true := by
  rcases cfg with ⟨plat, dyn, mg, ck, pf, mm, sc, sa, m5, sh, wf⟩
  cases dyn <;> cases mg <;> cases ck <;>
    simp [finalizeRaises, finalize_options]

/-- C1 witness: a concrete assignment with only `dynamic_linking` set does
not raise, exercising `finalize_options_error_iff`. -/
theorem finalize_options_error_iff_witness :
    finalizeRaises
        { plat_name := "linux-x86_64", dynamic_linking := true,
          enable_magic := false, enable_cuckoo := false,
          enable_profiling := false, has_memmem := true,
          has_strlcpy := true, has_strlcat := true, has_MD5_Init := true,
          has_SHA256_Init := true, walkFiles := [] } = false := by
  have h := finalize_options_error_iff
    { plat_name := "linux-x86_64", dynamic_linking := true,
      enable_magic := false, enable_cuckoo := false,
      enable_profiling := false, has_memmem := true,
      has_strlcpy := true, has_strlcat := true, has_MD5_Init := true,
      has_SHA256_Init := true, walkFiles := [] }
  simp only [Bool.false_and, Bool.and_self] at h
  cases hb : finalizeRaises
      { plat_name := "linux-x86_64", dynamic_linking := true,
        enable_magic := false, enable_cuckoo := false,
        enable_profiling := false, has_memmem := true,
        has_strlcpy := true, has_strlcat := true, has_MD5_Init := true,
        has_SHA256_Init := true, walkFiles := [] }
  · rfl
  · exact absurd (h.mp hb) (by decide)

/-- C9: when `enable_profiling` is set, the macro PROFILING_ENABLED is in
the macro list whatever the other inputs are (setup.py lines 135-136), and
`finalize_options` is independent of `enable_profiling` (setup.py lines
87-94 read only the magic, cuckoo and dynamic-linking flags). -/
theorem profiling_macro_and_no_error (cfg : BuildConfig)
    (hp : cfg.enable_profiling = true) :
    ("PROFILING_ENABLED", "1") ∈ (runBuild cfg).define_macros ∧
      ∀ b, finalize_options { cfg with enable_profiling := b } =
        finalize_options cfg := by
  constructor
  · simp [runBuild, buildMacros, hp]
  · intro b
    rfl

/-- C9 witness: `profiling_macro_and_no_error` at `cfgLinuxStatic`. -/
theorem profiling_macro_and_no_error_witness :
    cfgLinuxStatic.enable_profiling = true ∧
      ("PROFILING_ENABLED", "1") ∈ (runBuild cfgLinuxStatic).define_macros :=
  ⟨rfl, (profiling_macro_and_no_error cfgLinuxStatic rfl).1⟩

/-- C3: for a platform identifier naming Windows (the two identifiers the
code compares against at setup.py line 112), the macro list contains
the macro _CRT_SECURE_NO_WARNINGS and the library list contains `advapi32`
and `user32` (setup.py lines 115-117), under either linking mode. -/
theorem windows_macro_and_libraries (cfg : BuildConfig)
    (h : cfg.plat_name = "win32" ∨ cfg.plat_name = "win-amd64") :
    ("_CRT_SECURE_NO_WARNINGS", "1") ∈ (runBuild cfg).define_macros ∧
      "advapi32" ∈ (runBuild cfg).libraries ∧
      "user32" ∈ (runBuild cfg).libraries := by
  have hw : isWindows cfg = true := by
    rcases h with h | h <;> simp [isWindows, h]
  refine ⟨?_, ?_, ?_⟩ <;>
    cases hdyn : cfg.dynamic_linking <;>
      simp [runBuild, buildMacros, buildLibraries, hw, hdyn,
        List.erase_cons_head]

/-- C3 witness: `windows_macro_and_libraries` at `cfgWin32Static`. -/
theorem windows_macro_and_libraries_witness :
    cfgWin32Static.plat_name = "win32" ∧
      ("_CRT_SECURE_NO_WARNINGS", "1") ∈
          (runBuild cfgWin32Static).define_macros ∧
        "advapi32" ∈ (runBuild cfgWin32Static).libraries ∧
        "user32" ∈ (runBuild cfgWin32Static).libraries :=
  ⟨rfl, windows_macro_and_libraries cfgWin32Static (Or.inl rfl)⟩

/-- C8: when the platform identifier contains the substring `macosx`
(setup.py line 121), `/opt/local/include` is in the include-directory list
and `/opt/local/lib` is in the library-directory list (setup.py lines
123-124).  The hypothesis states substring containment by explicit
decomposition of the character list. -/
theorem osx_include_and_library_dirs (cfg : BuildConfig)
    (h : ∃ pre post,
      cfg.plat_name.toList = pre ++ ("macosx".toList ++ post)) :
    "/opt/local/include" ∈ (runBuild cfg).include_dirs ∧
      "/opt/local/lib" ∈ (runBuild cfg).library_dirs := by
  have hosx : isOSX cfg = true := by
    rw [isOSX, hasSubstring_iff]
    exact h
  cases hdyn : cfg.dynamic_linking <;>
    constructor <;>
      simp [runBuild, buildIncludeDirs, buildLibraryDirs, hosx, hdyn]

/-- C8 witness: `osx_include_and_library_dirs` at `cfgOSXDynamic`, whose
platform identifier `macosx-10.9-intel` contains `macosx` at offset 0. -/
theorem osx_include_and_library_dirs_witness :
    cfgOSXDynamic.plat_name.toList =
        [] ++ ("macosx".toList ++ "-10.9-intel".toList) ∧
      "/opt/local/include" ∈ (runBuild cfgOSXDynamic).include_dirs ∧
        "/opt/local/lib" ∈ (runBuild cfgOSXDynamic).library_dirs :=
  ⟨by decide,
    osx_include_and_library_dirs cfgOSXDynamic
      ⟨[], "-10.9-intel".toList, by decide⟩⟩

/-- C4: with dynamic linking off, on a non-Windows platform, when the
MD5_Init or the SHA256_Init probe fails, `run` narrows the feature set
silently (setup.py lines 149-154): `hash.c` is put on the exclusion list,
the macro HASH does not appear in the macro list, and `crypto` is not added
to the libraries.  `runBuild` is total, so no error is raised on this (or
any) input. -/
theorem static_probe_failure_silent_narrowing (cfg : BuildConfig)
    (hdyn : cfg.dynamic_linking = false)
    (hw1 : cfg.plat_name ≠ "win32") (hw2 : cfg.plat_name ≠ "win-amd64")
    (hprobe : (cfg.has_MD5_Init && cfg.has_SHA256_Init) = false) :
    "yara/libyara/modules/hash.c" ∈ buildExclusions cfg ∧
      ("HASH", "1") ∉ (runBuild cfg).define_macros ∧
      "crypto" ∉ (runBuild cfg).libraries := by
  have hw : isWindows cfg = false := by
    simp [isWindows, hw1, hw2]
  refine ⟨?_, ?_, ?_⟩
  · simp [buildExclusions, hw, hprobe]
  · simp [runBuild, buildMacros, hw, hdyn, hprobe]
  · simp [runBuild, buildLibraries, hw, hdyn, hprobe,
      List.erase_cons_head]

/-- C4 witness: `static_probe_failure_silent_narrowing` at
`cfgLinuxNoCrypto`, whose MD5 probe fails. -/
theorem static_probe_failure_silent_narrowing_witness :
    (cfgLinuxNoCrypto.dynamic_linking = false ∧
        cfgLinuxNoCrypto.plat_name ≠ "win32" ∧
        (cfgLinuxNoCrypto.has_MD5_Init &&
          cfgLinuxNoCrypto.has_SHA256_Init) = false) ∧
      "yara/libyara/modules/hash.c" ∈ buildExclusions cfgLinuxNoCrypto ∧
        ("HASH", "1") ∉ (runBuild cfgLinuxNoCrypto).define_macros ∧
        "crypto" ∉ (runBuild cfgLinuxNoCrypto).libraries :=
  ⟨⟨rfl, by decide, rfl⟩,
    static_probe_failure_silent_narrowing cfgLinuxNoCrypto rfl
      (by decide) (by decide) rfl⟩

/-- C10: with dynamic linking off on Windows, hashing is enabled without
consulting the capability probes (the probe fields of the configuration are
universally quantified here and appear in no hypothesis): the macro HASH is
among the macros, the bit-width specific `libeay32` or `libeay64` is among
the libraries, and `hash.c` is not on the exclusion list (setup.py lines
142-148). -/
theorem windows_static_hash_unconditional (cfg : BuildConfig)
    (hdyn : cfg.dynamic_linking = false)
    (h : cfg.plat_name = "win32" ∨ cfg.plat_name = "win-amd64") :
    ("HASH", "1") ∈ (runBuild cfg).define_macros ∧
      (cfg.plat_name = "win32" → "libeay32" ∈ (runBuild cfg).libraries) ∧
      (cfg.plat_name = "win-amd64" →
        "libeay64" ∈ (runBuild cfg).libraries) ∧
      "yara/libyara/modules/hash.c" ∉ buildExclusions cfg := by
  have hw : isWindows cfg = true := by
    rcases h with h | h <;> simp [isWindows, h]
  refine ⟨?_, ?_, ?_, ?_⟩
  · simp [runBuild, buildMacros, hw, hdyn]
  · intro h32
    simp [runBuild, buildLibraries, bitsStr, hw, hdyn, h32,
      List.erase_cons_head]
  · intro h64
    simp [runBuild, buildLibraries, bitsStr, hw, hdyn, h64,
      List.erase_cons_head]
  · simp [buildExclusions, hw]

/-- C10 witness: `windows_static_hash_unconditional` at `cfgWin32Static`,
whose hash probes both fail. -/
theorem windows_static_hash_unconditional_witness :
    (cfgWin32Static.dynamic_linking = false ∧
        cfgWin32Static.plat_name = "win32" ∧
        cfgWin32Static.has_MD5_Init = false) ∧
      ("HASH", "1") ∈ (runBuild cfgWin32Static).define_macros ∧
        "libeay32" ∈ (runBuild cfgWin32Static).libraries ∧
        "yara/libyara/modules/hash.c" ∉ buildExclusions cfgWin32Static := by
  have h := windows_static_hash_unconditional cfgWin32Static rfl
    (Or.inl rfl)
  exact ⟨⟨rfl, rfl, rfl⟩, h.1, h.2.1 rfl, h.2.2.2⟩

/-- C6: the configuration is a deterministic function of its inputs; two
runs with identical flags, platform identifier, capability-probe outcomes
and directory contents produce identical source, macro and library sets
(setup.py lines 96-187 read nothing else). -/
theorem runBuild_deterministic (c1 c2 : BuildConfig)
    (hplat : c1.plat_name = c2.plat_name)
    (hdyn : c1.dynamic_linking = c2.dynamic_linking)
    (hmg : c1.enable_magic = c2.enable_magic)
    (hck : c1.enable_cuckoo = c2.enable_cuckoo)
    (hpf : c1.enable_profiling = c2.enable_profiling)
    (hmm : c1.has_memmem = c2.has_memmem)
    (hcp : c1.has_strlcpy = c2.has_strlcpy)
    (hct : c1.has_strlcat = c2.has_strlcat)
    (hm5 : c1.has_MD5_Init = c2.has_MD5_Init)
    (hsh : c1.has_SHA256_Init = c2.has_SHA256_Init)
    (hwf : c1.walkFiles = c2.walkFiles) :
    runBuild c1 = runBuild c2 := by
  rcases c1 with ⟨p1, d1, m1, c1, f1, a1, b1, g1, h1, i1, w1⟩
  rcases c2 with ⟨p2, d2, m2, c2, f2, a2, b2, g2, h2, i2, w2⟩
  simp only at hplat hdyn hmg hck hpf hmm hcp hct hm5 hsh hwf
  subst hplat hdyn hmg hck hpf hmm hcp hct hm5 hsh hwf
  rfl

/-- C6 witness: `runBuild_deterministic` applied at `cfgLinuxStatic` twice. -/
theorem runBuild_deterministic_witness :
    runBuild cfgLinuxStatic = runBuild cfgLinuxStatic :=
  runBuild_deterministic cfgLinuxStatic cfgLinuxStatic
    rfl rfl rfl rfl rfl rfl rfl rfl rfl rfl rfl

/-- C5: with dynamic linking on, the extension keeps `yara` in the library
list and compiles only `yara-python.c` (setup.py lines 104-106: the walk at
lines 172-176 is skipped); with dynamic linking off, `yara` is removed from
the library list (line 139) and every discovered `.c` file not on the
exclusion list is compiled into the extension (lines 172-176). -/
theorem dynamic_vs_static_linking (cfg : BuildConfig) :
    (cfg.dynamic_linking = true →
      (runBuild cfg).sources = ["yara-python.c"] ∧
        "yara" ∈ (runBuild cfg).libraries) ∧
    (cfg.dynamic_linking = false →
      "yara" ∉ (runBuild cfg).libraries ∧
        ∀ x ∈ cfg.walkFiles, strEndsWith x ".c" = true →
          x ∉ buildExclusions cfg → x ∈ (runBuild cfg).sources) := by
  constructor
  · intro hdyn
    constructor
    · simp [runBuild, buildSources, hdyn]
    · cases hw : isWindows cfg <;>
        simp [runBuild, buildLibraries, hdyn, hw]
  · intro hdyn
    constructor
    · have hbits : bitsStr cfg = "64" ∨ bitsStr cfg = "32" := by
        unfold bitsStr
        split <;> simp
      have hleay : ("libeay" ++ bitsStr cfg) ≠ "yara" := by
        rcases hbits with hb | hb <;> rw [hb] <;> decide
      have hjans : ("jansson" ++ bitsStr cfg) ≠ "yara" := by
        rcases hbits with hb | hb <;> rw [hb] <;> decide
      cases hw : isWindows cfg <;>
        simp [runBuild, buildLibraries, hdyn, hw, List.erase_cons_head,
          hleay, hjans]
      exact ⟨fun h => hleay h.symm, fun _ h => hjans h.symm⟩
    · intro x hx hend hexcl
      have hp : (strEndsWith x ".c" &&
          !((buildExclusions cfg).contains x)) = true := by
        rw [Bool.and_eq_true]
        exact ⟨hend, by simpa using hexcl⟩
      simp only [runBuild, buildSources, hdyn, Bool.false_eq_true,
        if_false]
      exact List.mem_cons_of_mem _ (List.mem_filter.mpr ⟨hx, hp⟩)

/-- C5 witness: `dynamic_vs_static_linking` at the dynamic `cfgOSXDynamic`
and the static `cfgLinuxStatic` (whose walked file `ahocorasick.c` is
compiled in). -/
theorem dynamic_vs_static_linking_witness :
    ((runBuild cfgOSXDynamic).sources = ["yara-python.c"] ∧
        "yara" ∈ (runBuild cfgOSXDynamic).libraries) ∧
      ("yara" ∉ (runBuild cfgLinuxStatic).libraries ∧
        "yara/libyara/ahocorasick.c" ∈ (runBuild cfgLinuxStatic).sources) :=
  ⟨(dynamic_vs_static_linking cfgOSXDynamic).1 rfl,
    ((dynamic_vs_static_linking cfgLinuxStatic).2 rfl).1,
    ((dynamic_vs_static_linking cfgLinuxStatic).2 rfl).2
      "yara/libyara/ahocorasick.c" (by decide) (by decide) (by decide)⟩

/-- A static configuration with every optional feature enabled whose walk
discovers `pe_utils.c`, the file that setup.py line 105 always excludes. -/
def cfgPeUtils : BuildConfig :=
  { plat_name := "linux-x86_64"
    dynamic_linking := false
    enable_magic := true
    enable_cuckoo := true
    enable_profiling := false
    has_memmem := true
    has_strlcpy := true
    has_strlcat := true
    has_MD5_Init := true
    has_SHA256_Init := true
    walkFiles := ["yara/libyara/modules/pe_utils.c"] }

/-- Membership in the exclusion list, case by case. -/
theorem mem_buildExclusions (cfg : BuildConfig) (x : String) :
    x ∈ buildExclusions cfg ↔
      x = "yara/libyara/modules/pe_utils.c" ∨
        (x = "yara/libyara/modules/hash.c" ∧
          (isWindows cfg ||
            (cfg.has_MD5_Init && cfg.has_SHA256_Init)) = false) ∨
        (x = "yara/libyara/modules/magic.c" ∧ cfg.enable_magic = false) ∨
        (x = "yara/libyara/modules/cuckoo.c" ∧
          cfg.enable_cuckoo = false) := by
  unfold buildExclusions
  cases hw : isWindows cfg <;>
    cases h5 : cfg.has_MD5_Init <;>
      cases hs : cfg.has_SHA256_Init <;>
        cases hm : cfg.enable_magic <;>
          cases hc : cfg.enable_cuckoo <;>
            simp [hw, h5, hs, hm, hc]

/-- C2 counterexample: in `cfgPeUtils` dynamic linking is off, every
optional feature is enabled (so no feature module is disabled), the walk
discovers `pe_utils.c`, which ends in `.c`, and yet `pe_utils.c` is not in
the computed source list — the claim that every discovered `.c` file other
than disabled feature modules is included fails on it. -/
theorem sources_exactness_counterexample :
    cfgPeUtils.dynamic_linking = false ∧
      cfgPeUtils.enable_magic = true ∧
      cfgPeUtils.enable_cuckoo = true ∧
      (cfgPeUtils.has_MD5_Init && cfgPeUtils.has_SHA256_Init) = true ∧
      "yara/libyara/modules/pe_utils.c" ∈ cfgPeUtils.walkFiles ∧
      strEndsWith "yara/libyara/modules/pe_utils.c" ".c" = true ∧
      "yara/libyara/modules/pe_utils.c" ∉ (runBuild cfgPeUtils).sources := by
  decide

/-- C2 amended: with dynamic linking off, a discovered file is in the
computed source list exactly when it ends in `.c` and is not the
always-excluded `pe_utils.c`, not `hash.c` while hashing support is
disabled (neither Windows nor both crypto probes succeeding), not `magic.c`
while `enable_magic` is unset, and not `cuckoo.c` while `enable_cuckoo` is
unset (setup.py lines 105, 149-176). -/
theorem sources_exclusion_characterization (cfg : BuildConfig)
    (hdyn : cfg.dynamic_linking = false)
    (x : String) (hx : x ∈ cfg.walkFiles) :
    x ∈ (runBuild cfg).sources ↔
      (strEndsWith x ".c" = true ∧
        x ≠ "yara/libyara/modules/pe_utils.c" ∧
        (x = "yara/libyara/modules/hash.c" →
          (isWindows cfg ||
            (cfg.has_MD5_Init && cfg.has_SHA256_Init)) = true) ∧
        (x = "yara/libyara/modules/magic.c" → cfg.enable_magic = true) ∧
        (x = "yara/libyara/modules/cuckoo.c" →
          cfg.enable_cuckoo = true)) := by
  simp only [runBuild, buildSources, hdyn, Bool.false_eq_true, if_false]
  rw [List.mem_cons]
  constructor
  · rintro (rfl | hf)
    · refine ⟨by decide, by decide, ?_, ?_, ?_⟩ <;>
        (intro h; exact absurd h (by decide))
    · obtain ⟨hxw, hp⟩ := List.mem_filter.mp hf
      rw [Bool.and_eq_true] at hp
      obtain ⟨hend, hnc⟩ := hp
      have hnm : x ∉ buildExclusions cfg := by
        simpa using hnc
      rw [mem_buildExclusions] at hnm
      push_neg at hnm
      obtain ⟨hpe, hhash, hmag, hcko⟩ := hnm
      refine ⟨hend, hpe, ?_, ?_, ?_⟩
      · intro hxh
        have := hhash hxh
        cases hb : (isWindows cfg ||
            (cfg.has_MD5_Init && cfg.has_SHA256_Init))
        · exact absurd hb this
        · rfl
      · intro hxm
        have := hmag hxm
        cases hb : cfg.enable_magic
        · exact absurd hb this
        · rfl
      · intro hxc
        have := hcko hxc
        cases hb : cfg.enable_cuckoo
        · exact absurd hb this
        · rfl
  · rintro ⟨hend, hpe, h1, h2, h3⟩
    right
    refine List.mem_filter.mpr ⟨hx, ?_⟩
    rw [Bool.and_eq_true]
    refine ⟨hend, ?_⟩
    have hnm : x ∉ buildExclusions cfg := by
      rw [mem_buildExclusions]
      push_neg
      exact ⟨hpe, fun h => by simp [h1 h], fun h => by simp [h2 h],
        fun h => by simp [h3 h]⟩
    simpa using hnm

/-- C2 amended witness: `sources_exclusion_characterization` at
`cfgLinuxNoCrypto` and its walked file `hash.c`: the crypto probe fails, so
`hash.c` is not compiled in. -/
theorem sources_exclusion_characterization_witness :
    (cfgLinuxNoCrypto.dynamic_linking = false ∧
        "yara/libyara/modules/hash.c" ∈ cfgLinuxNoCrypto.walkFiles) ∧
      "yara/libyara/modules/hash.c" ∉ (runBuild cfgLinuxNoCrypto).sources := by
  refine ⟨⟨rfl, by decide⟩, ?_⟩
  intro hmem
  have h := (sources_exclusion_characterization cfgLinuxNoCrypto rfl
    "yara/libyara/modules/hash.c" (by decide)).mp hmem
  exact absurd (h.2.2.1 rfl) (by decide)

/-!
Model of the context manager `muted` (setup.py lines 32-55).  The manager
opens the null device, saves a duplicate of each given stream descriptor
with `os.dup`, redirects each stream to the null device with `os.dup2`,
yields to the managed block, and in a `finally` block redirects each stream
back to its saved duplicate and closes the null-device handle — so the
restore and the close happen whether or not the block raised.

The process file-descriptor table is a map from descriptor numbers to the
open file description they refer to (`none` when the descriptor is not
open).  `os.dup2(src, dst)` makes `dst` refer to the description of `src`;
`os.dup(s)` returns a fresh descriptor referring to the description of `s`,
which is the same table update with a fresh target; `close(fd)` removes the
entry.  The descriptors chosen by `open` and `os.dup` are a choice of the
operating system; the embedding takes them as the inputs `dn` and `olds`,
constrained only by what POSIX guarantees: a returned descriptor is not one
of the currently open stream descriptors, and distinct calls return
distinct descriptors.  The managed block itself is represented by its
outcome, an `Except` value that is an error exactly when the block raises;
the block does not touch the redirected descriptors in the program being
modelled.
-/

/-- An open file description: the null device or some other stream. -/
inductive FileDesc where
  | devnull : FileDesc
  | stream : Nat → FileDesc
deriving DecidableEq, Repr

/-- The process file-descriptor table. -/
abbrev FdTable := Nat → Option FileDesc

/-- `os.dup2(src, dst)`: `dst` refers to the description of `src`. -/
def fdDup2 (t : FdTable) (src dst : Nat) : FdTable :=
  Function.update t dst (t src)

/-- `close(fd)`. -/
def fdClose (t : FdTable) (fd : Nat) : FdTable :=
  Function.update t fd none

/-- Opening a file with description `d` at the descriptor `fd` the
operating system chose. -/
def fdOpenAt (t : FdTable) (fd : Nat) (d : FileDesc) : FdTable :=
  Function.update t fd (some d)

/-- setup.py line 48: `old_streams = [os.dup(s.fileno()) for s in streams]`.
Each pair `(o, s)` records the fresh descriptor `o` returned by
`os.dup(s)`. -/
def dupLoop (t : FdTable) : List (Nat × Nat) → FdTable
  | [] => t
  | (o, s) :: rest => dupLoop (fdDup2 t s o) rest

/-- setup.py lines 49-50: redirect every stream to the null device. -/
def redirectLoop (t : FdTable) (dn : Nat) : List Nat → FdTable
  | [] => t
  | s :: rest => redirectLoop (fdDup2 t dn s) dn rest

/-- setup.py lines 52-54: the `finally` loop
`for o, n in zip(old_streams, streams): os.dup2(o, n.fileno())`. -/
def restoreLoop (t : FdTable) : List (Nat × Nat) → FdTable
  | [] => t
  | (o, s) :: rest => restoreLoop (fdDup2 t o s) rest

/-- setup.py lines 32-55: the whole context manager.  `streams` holds the
`fileno()` of each given stream, `dn` the descriptor `open(os.devnull)`
received, `olds` the descriptors the `os.dup` calls received, and `body`
the outcome of the managed block.  The `finally` block (restore loop, then
`devnull.close()`) is applied unconditionally, and the body outcome is
passed through. -/
def muted (streams olds : List Nat) (dn : Nat) (body : Except Unit Unit)
    (t : FdTable) : FdTable × Except Unit Unit :=
  let t1 := fdOpenAt t dn FileDesc.devnull
  let t2 := dupLoop t1 (olds.zip streams)
  let t3 := redirectLoop t2 dn streams
  let t4 := restoreLoop t3 (olds.zip streams)
  (fdClose t4 dn, body)

theorem dupLoop_apply_notin (pairs : List (Nat × Nat)) :
    ∀ (t : FdTable) (x : Nat), x ∉ pairs.map Prod.fst →
      dupLoop t pairs x = t x := by
  induction pairs with
  | nil => intro t x _; rfl
  | cons q rest ih =>
      intro t x h
      obtain ⟨o, s⟩ := q
      simp only [List.map_cons, List.mem_cons, not_or] at h
      rw [dupLoop, ih _ x h.2, fdDup2, Function.update_noteq h.1]

theorem restoreLoop_apply_notin (pairs : List (Nat × Nat)) :
    ∀ (t : FdTable) (x : Nat), x ∉ pairs.map Prod.snd →
      restoreLoop t pairs x = t x := by
  induction pairs with
  | nil => intro t x _; rfl
  | cons q rest ih =>
      intro t x h
      obtain ⟨o, s⟩ := q
      simp only [List.map_cons, List.mem_cons, not_or] at h
      rw [restoreLoop, ih _ x h.2, fdDup2, Function.update_noteq h.1]

theorem redirectLoop_apply_notin (streams : List Nat) :
    ∀ (t : FdTable) (dn x : Nat), x ∉ streams →
      redirectLoop t dn streams x = t x := by
  induction streams with
  | nil => intro t dn x _; rfl
  | cons s rest ih =>
      intro t dn x h
      simp only [List.mem_cons, not_or] at h
      rw [redirectLoop, ih _ dn x h.2, fdDup2, Function.update_noteq h.1]

theorem dupLoop_apply_mem (pairs : List (Nat × Nat)) :
    ∀ (t : FdTable) (o s : Nat), (o, s) ∈ pairs →
      (pairs.map Prod.fst).Nodup →
      (∀ q ∈ pairs, q.2 ∉ pairs.map Prod.fst) →
      dupLoop t pairs o = t s := by
  induction pairs with
  | nil => intro t o s h; simp at h
  | cons q rest ih =>
      intro t o s hmem hnd hdisj
      obtain ⟨a, b⟩ := q
      simp only [List.map_cons, List.nodup_cons] at hnd
      rcases List.mem_cons.mp hmem with heq | hmem'
      · obtain ⟨rfl, rfl⟩ := Prod.mk.injEq .. |>.mp heq
        rw [dupLoop, dupLoop_apply_notin rest _ o hnd.1, fdDup2,
          Function.update_same]
      · have hso : s ≠ a := by
          intro hcon
          apply hdisj (o, s) (List.mem_cons_of_mem _ hmem')
          rw [List.map_cons]
          exact List.mem_cons.mpr (Or.inl hcon)
        have hdisj' : ∀ q ∈ rest, q.2 ∉ rest.map Prod.fst := by
          intro q hq hmap
          apply hdisj q (List.mem_cons_of_mem _ hq)
          rw [List.map_cons]
          exact List.mem_cons_of_mem _ hmap
        rw [dupLoop, ih _ o s hmem' hnd.2 hdisj', fdDup2,
          Function.update_noteq hso]

theorem restoreLoop_restores (pairs : List (Nat × Nat)) :
    ∀ (t init : FdTable),
      (∀ q ∈ pairs, q.1 ∉ pairs.map Prod.snd) →
      (∀ q ∈ pairs, t q.1 = init q.2) →
      ∀ s ∈ pairs.map Prod.snd, restoreLoop t pairs s = init s := by
  induction pairs with
  | nil => intro t init _ _ s hs; simp at hs
  | cons q rest ih =>
      intro t init hdisj hval s hs
      obtain ⟨a, b⟩ := q
      by_cases hsr : s ∈ rest.map Prod.snd
      · rw [restoreLoop]
        apply ih (fdDup2 t a b) init ?hd ?hv s hsr
        case hd =>
          intro p hp hmap
          apply hdisj p (List.mem_cons_of_mem _ hp)
          rw [List.map_cons]
          exact List.mem_cons_of_mem _ hmap
        case hv =>
          intro p hp
          have hpb : p.1 ≠ b := by
            intro hcon
            apply hdisj p (List.mem_cons_of_mem _ hp)
            rw [List.map_cons]
            exact List.mem_cons.mpr (Or.inl hcon)
          rw [fdDup2, Function.update_noteq hpb]
          exact hval p (List.mem_cons_of_mem _ hp)
      · have hsb : s = b := by
          have hs' := hs
          rw [List.map_cons] at hs'
          rcases List.mem_cons.mp hs' with h | h
          · exact h
          · exact absurd h hsr
        subst hsb
        rw [restoreLoop, restoreLoop_apply_notin rest _ s hsr, fdDup2,
          Function.update_same]
        exact hval (a, s) (List.mem_cons_self ..)

/-- C7: for every use of `muted` — any streams, any table, any descriptors
the operating system hands out for the null device and the duplicates (with
the POSIX freshness guarantees as hypotheses), and any body outcome,
including a raising one — the original descriptor of every stream is
restored afterwards, the null-device descriptor is closed, and the body
outcome is passed through. -/
theorem muted_restores_and_closes (streams olds : List Nat) (dn : Nat)
    (body : Except Unit Unit) (t : FdTable)
    (hlen : olds.length = streams.length)
    (hnd : olds.Nodup)
    (hdisj : ∀ o ∈ olds, o ∉ streams)
    (hdn : dn ∉ streams) :
    (∀ s ∈ streams, (muted streams olds dn body t).1 s = t s) ∧
      (muted streams olds dn body t).1 dn = none ∧
      (muted streams olds dn body t).2 = body := by
  have hfst : (olds.zip streams).map Prod.fst = olds :=
    List.map_fst_zip _ _ (le_of_eq hlen)
  have hsnd : (olds.zip streams).map Prod.snd = streams :=
    List.map_snd_zip _ _ (le_of_eq hlen.symm)
  refine ⟨?_, ?_, rfl⟩
  · intro s hs
    have hsdn : s ≠ dn := fun h => hdn (h ▸ hs)
    show fdClose
        (restoreLoop
          (redirectLoop (dupLoop (fdOpenAt t dn FileDesc.devnull)
            (olds.zip streams)) dn streams)
          (olds.zip streams)) dn s = t s
    rw [fdClose, Function.update_noteq hsdn]
    apply restoreLoop_restores (olds.zip streams) _ t ?disj ?vals s
      (by rw [hsnd]; exact hs)
    case disj =>
      intro q hq
      rw [hsnd]
      exact hdisj q.1 (by rw [← hfst]; exact List.mem_map_of_mem Prod.fst hq)
    case vals =>
      intro q hq
      obtain ⟨a, b⟩ := q
      obtain ⟨ha, hb⟩ := List.of_mem_zip hq
      rw [redirectLoop_apply_notin streams _ dn a (hdisj a ha)]
      rw [dupLoop_apply_mem (olds.zip streams) _ a b hq
        (by rw [hfst]; exact hnd) ?dj]
      case dj =>
        intro p hp hmap
        exact hdisj p.2 (by rw [← hfst]; exact hmap)
          (by rw [← hsnd]; exact List.mem_map_of_mem Prod.snd hp)
      have hbdn : b ≠ dn := fun h => hdn (h ▸ hb)
      show Function.update t dn (some FileDesc.devnull) b = t b
      exact Function.update_noteq hbdn _ _
  · show fdClose
        (restoreLoop
          (redirectLoop (dupLoop (fdOpenAt t dn FileDesc.devnull)
            (olds.zip streams)) dn streams)
          (olds.zip streams)) dn dn = none
    rw [fdClose]
    exact Function.update_same ..

/-- A concrete initial table: stdout-like descriptor 1 and stderr-like
descriptor 2 are open, everything else is closed. -/
def fdInit : FdTable := fun n =>
  if n = 1 then some (FileDesc.stream 1)
  else if n = 2 then some (FileDesc.stream 2)
  else none

/-- C7 witness: `muted_restores_and_closes` on streams 1 and 2, null device
at 5, duplicates at 3 and 4, and a raising body. -/
theorem muted_restores_and_closes_witness :
    (muted [1, 2] [3, 4] 5 (Except.error ()) fdInit).1 1 = fdInit 1 ∧
      (muted [1, 2] [3, 4] 5 (Except.error ()) fdInit).1 5 = none := by
  have h := muted_restores_and_closes [1, 2] [3, 4] 5 (Except.error ())
    fdInit rfl (by decide) (by decide) (by decide)
  exact ⟨h.1 1 (by decide), h.2.1⟩
